import Mathlib

/-!
Verification of the sale-transaction core of the `tally` repository.

The embedded code is `src/sales/models.py` (`Sale.save`, `Sale.delete`,
`Sale.__add__`, `Sale.__sub__`, `Sale.revenue`, `Sale.get_total_revenue`)
and `src/products/models.py` (`Product`, in particular `Product.__eq__`).

Modelling conventions:
- Python integers are `Int` (the `Product.quantity` column is a plain
  `IntegerField`; the in-memory `Sale.quantity` attribute is an arbitrary
  Python int at save time, so both are embedded as `Int`).
- Money amounts are `Rat` (decimal amounts with a currency code string).
- Primary keys (UUIDs) are opaque and embedded as `Nat`.
- The database is explicit state: a list of product rows and a list of
  sale rows; Django's `Model.save()` is an upsert by primary key,
  `Model.delete()` removes the rows with the instance's primary key, and
  `objects.filter(...)` is embedded as an in-memory list of sale objects
  restricted by a boolean predicate.
- A raised exception is `Except.error`: an operation that raises returns
  no successor state, exactly as the caller of the Python method observes
  (the checks in `Sale.save` run before any mutation).
-/

/-- A money value: a decimal amount together with a currency code
(djmoney `Money`). -/
structure Money where
  amount : Rat
  currency : String
deriving Repr, DecidableEq

/-- Product row, from `src/products/models.py` lines 25-57: primary key,
name, unit price with currency, mutable on-hand quantity (a plain
`IntegerField`, so `Int`), and the owning store's key.  Fields irrelevant
to every claim (description, color, size, weight, category, group, brand,
timestamps) are omitted. -/
structure Product where
  id : Nat
  name : String
  price : Money
  quantity : Int
  store : Nat
deriving Repr, DecidableEq

/-- `Product.__eq__` (src/products/models.py lines 56-57):
`isinstance(other, self.__class__) and self.pk == other.pk`.
In the typed embedding the `isinstance` conjunct is always true, so
equality is comparison of primary keys only — not of price or name. -/
def Product.eq (a b : Product) : Bool :=
  a.id == b.id

/-- An in-memory `Sale` model instance (src/sales/models.py lines 13-24):
primary key, store key, the referenced `Product` object (Django resolves
the foreign key to an in-memory object), and the quantity sold.
Timestamps are omitted. -/
structure Sale where
  id : Nat
  store : Nat
  product : Product
  quantity : Int
deriving Repr, DecidableEq

/-- A persisted sale row.  The database row stores the product foreign
key, not the product's fields. -/
structure SaleRow where
  id : Nat
  store : Nat
  product : Nat
  quantity : Int
deriving Repr, DecidableEq

/-- The row `super().save()` writes for a sale instance. -/
def Sale.toRow (s : Sale) : SaleRow :=
  ⟨s.id, s.store, s.product.id, s.quantity⟩

/-- The persistent store: product rows and sale rows. -/
structure DB where
  products : List Product
  sales : List SaleRow
deriving Repr, DecidableEq

/-- Lookup by primary key: the row with key `i`, if any. -/
def findBy (key : α → Nat) (i : Nat) (l : List α) : Option α :=
  l.find? (fun y => key y == i)

/-- Upsert by primary key, the observable behaviour of Django's
`Model.save()`: replace the row carrying this key if present, insert
otherwise. -/
def upsertBy (key : α → Nat) (x : α) (l : List α) : List α :=
  if l.any (fun y => key y == key x) then
    l.map (fun y => if key y == key x then x else y)
  else
    l ++ [x]

/-- Removal by primary key, the observable behaviour of Django's
`Model.delete()`. -/
def removeBy (key : α → Nat) (i : Nat) (l : List α) : List α :=
  l.filter (fun y => key y != i)

/-- Domain errors raised by `Sale.save`.  The source raises
`ValidationError("Sale quantity cannot be zero")` (spec name
`InvalidQuantity`) and `ValidationError("Sale quantity cannot be greater
than available product quantity ({available})")` (spec name
`InsufficientInventory`); the second carries the available quantity that
the f-string interpolates. -/
inductive SaleError where
  | invalidQuantity
  | insufficientInventory (available : Int)
deriving Repr, DecidableEq

/-- The error raised by `Sale.__add__` / `Sale.__sub__`
(`ValueError("Cannot add/subtract sales of different products")`; spec
name `ProductMismatch`). -/
inductive CombineError where
  | productMismatch
deriving Repr, DecidableEq

/-- The error raised by the currency converter when no exchange rate is
known (djmoney `MissingRate`; spec name `ConversionUnavailable`). -/
inductive ConvError where
  | conversionUnavailable
deriving Repr, DecidableEq

/-- `Sale.revenue` (src/sales/models.py lines 35-38):
`self.quantity * self.product.price`, a money value in the product's
currency. -/
def Sale.revenue (s : Sale) : Money :=
  ⟨(s.quantity : Rat) * s.product.price.amount, s.product.price.currency⟩

/-- `Sale.save` (src/sales/models.py lines 78-89).  Checks, in source
order: quantity equal to zero raises; quantity greater than the
product's on-hand quantity raises, reporting the available quantity.
Then the in-memory product quantity is decremented, the sale row is
written (`super().save()`), and the product row is written
(`self.product.save()`).  Returns the updated in-memory instance and
the new database state. -/
def Sale.save (s : Sale) (db : DB) : Except SaleError (Sale × DB) :=
  if s.quantity = 0 then
    .error .invalidQuantity
  else if s.quantity > s.product.quantity then
    .error (.insufficientInventory s.product.quantity)
  else
    let p' := { s.product with quantity := s.product.quantity - s.quantity }
    let s' := { s with product := p' }
    let db1 := { db with sales := upsertBy SaleRow.id s'.toRow db.sales }
    let db2 := { db1 with products := upsertBy Product.id p' db1.products }
    .ok (s', db2)

/-- `Sale.delete` (src/sales/models.py lines 92-96).  The in-memory
product quantity is incremented, the sale row is removed
(`super().delete()`), and then the product row is written
(`self.product.save()`). -/
def Sale.delete (s : Sale) (db : DB) : Sale × DB :=
  let p' := { s.product with quantity := s.product.quantity + s.quantity }
  let s' := { s with product := p' }
  let db1 := { db with sales := removeBy SaleRow.id s.id db.sales }
  let db2 := { db1 with products := upsertBy Product.id p' db1.products }
  (s', db2)

/-- The successive persistent states produced by `Sale.delete`, in the
order the source performs its two writes: first `super().delete()`
(sale row removed), then `self.product.save()` (incremented product row
written). -/
def Sale.deleteTrace (s : Sale) (db : DB) : List DB :=
  let p' := { s.product with quantity := s.product.quantity + s.quantity }
  let db1 := { db with sales := removeBy SaleRow.id s.id db.sales }
  let db2 := { db1 with products := upsertBy Product.id p' db1.products }
  [db1, db2]

/-- `Sale.__add__` (src/sales/models.py lines 50-58): raises unless the
two products compare equal under `Product.__eq__`; otherwise returns a
new, unsaved `Sale` carrying the left operand's store and product and
the summed quantity.  The fresh instance's random UUID key is modelled
as the unused placeholder `0`; no database state is touched. -/
def Sale.add (s other : Sale) : Except CombineError Sale :=
  if !(Product.eq s.product other.product) then
    .error .productMismatch
  else
    .ok { id := 0, store := s.store, product := s.product,
          quantity := s.quantity + other.quantity }

/-- `Sale.__sub__` (src/sales/models.py lines 64-72): as `Sale.add`, with
the difference of the quantities; no check on the sign of the result. -/
def Sale.sub (s other : Sale) : Except CombineError Sale :=
  if !(Product.eq s.product other.product) then
    .error .productMismatch
  else
    .ok { id := 0, store := s.store, product := s.product,
          quantity := s.quantity - other.quantity }

/-- Modelled from the spec: the external Currency Converter
(`djmoney.contrib.exchange.convert_money`, not part of this repository).
Spec section 2: given an amount in currency A, returns the equivalent in
currency B using exchange-rate data; may fail if no rate is known.  The
rate table is the parameter `rates`. -/
def convert_money (rates : String → String → Option Rat) (m : Money)
    (target : String) : Except ConvError Money :=
  match rates m.currency target with
  | some r => .ok ⟨m.amount * r, target⟩
  | none => .error .conversionUnavailable

/-- Python's `sum(map(lambda sale: convert_money(sale.revenue, currency), qs))`
with its implicit integer start value `0`: the accumulator is `none`
while it is still the integer `0` (py-moneyed returns the money operand
unchanged when added to `0`), and `some m` once it is a money value.
The first conversion failure propagates, aborting the whole sum. -/
def moneySum (rates : String → String → Option Rat) (target : String)
    (acc : Option Money) : List Sale → Except ConvError (Option Money)
  | [] => .ok acc
  | s :: rest =>
    match convert_money rates s.revenue target with
    | .error e => .error e
    | .ok m =>
      match acc with
      | none => moneySum rates target (some m) rest
      | some a => moneySum rates target (some ⟨a.amount + m.amount, a.currency⟩) rest

/-- `Sale.get_total_revenue` (src/sales/models.py lines 99-109):
`sum(map(lambda sale: convert_money(sale.revenue, currency),
cls.objects.filter(**filter))) or Money(0, currency)`.
The queryset is embedded as `entries.filter pred`.  Python's `or`
returns `Money(0, currency)` when the sum is falsy: the integer `0`
(no entries) or a zero-amount money value. -/
def Sale.get_total_revenue (rates : String → String → Option Rat)
    (currency : String) (entries : List Sale) (pred : Sale → Bool) :
    Except ConvError Money :=
  match moneySum rates currency none (entries.filter pred) with
  | .error e => .error e
  | .ok none => .ok ⟨0, currency⟩
  | .ok (some m) => if m.amount = 0 then .ok ⟨0, currency⟩ else .ok m

/-- Looking up the key just upserted yields the upserted row. -/
theorem findBy_upsertBy (key : α → Nat) (x : α) (l : List α) :
    findBy key (key x) (upsertBy key x l) = some x := by
  induction l with
  | nil => simp [findBy, upsertBy]
  | cons y t ih =>
    by_cases hy : key y == key x
    · simp only [upsertBy, List.any_cons, hy, Bool.true_or, if_pos, List.map_cons,
        if_pos hy, findBy]
      exact List.find?_cons_of_pos _ (by simp)
    · simp only [Bool.not_eq_true] at hy
      have hy2 : key y ≠ key x := by simpa using hy
      by_cases ht : t.any (fun z => key z == key x)
      · have h1 : upsertBy key x t = t.map (fun z => if key z == key x then x else z) := by
          simp [upsertBy, ht]
        have h2 : upsertBy key x (y :: t) =
            y :: t.map (fun z => if key z == key x then x else z) := by
          simp [upsertBy, List.any_cons, ht, hy, hy2]
        rw [findBy, h2, List.find?_cons_of_neg _ (by simp [hy])]
        rw [findBy, h1] at ih
        exact ih
      · have h1 : upsertBy key x t = t ++ [x] := by
          simp [upsertBy, ht]
        have h2 : upsertBy key x (y :: t) = y :: (t ++ [x]) := by
          simp only [Bool.not_eq_true] at ht
          simp [upsertBy, List.any_cons, ht, hy, hy2]
        rw [findBy, h2, List.find?_cons_of_neg _ (by simp [hy])]
        rw [findBy, h1] at ih
        exact ih

/-- Looking up a key just removed yields nothing. -/
theorem findBy_removeBy (key : α → Nat) (i : Nat) (l : List α) :
    findBy key i (removeBy key i l) = none := by
  rw [findBy, removeBy, List.find?_eq_none]
  intro x hx
  rcases List.mem_filter.mp hx with ⟨-, h2⟩
  simpa using h2

/-- C1: for every product with on-hand quantity Q > 0 and every quantity
q with 0 < q ≤ Q, committing the sale succeeds: the product's on-hand
quantity becomes Q − q (in memory and in the persisted product row) and
a persisted ledger row with quantity q for this product exists
afterwards. -/
theorem commit_sale_in_range (s : Sale) (db : DB)
    (hpos : 0 < s.quantity) (hle : s.quantity ≤ s.product.quantity) :
    ∃ s' db', Sale.save s db = .ok (s', db') ∧
      s'.product.quantity = s.product.quantity - s.quantity ∧
      findBy Product.id s.product.id db'.products = some s'.product ∧
      ∃ row, findBy SaleRow.id s.id db'.sales = some row ∧
        row.quantity = s.quantity ∧ row.product = s.product.id := by
  have h0 : ¬ (s.quantity = 0) := by omega
  have h1 : ¬ (s.quantity > s.product.quantity) := by omega
  rw [Sale.save, if_neg h0, if_neg h1]
  refine ⟨_, _, rfl, rfl, ?_, ⟨s.id, s.store, s.product.id, s.quantity⟩, ?_, rfl, rfl⟩
  · exact findBy_upsertBy Product.id
      { s.product with quantity := s.product.quantity - s.quantity }
      db.products
  · exact findBy_upsertBy SaleRow.id
      (Sale.toRow { s with product :=
        { s.product with quantity := s.product.quantity - s.quantity } })
      db.sales

/-- Witness for C1 at the spec's concrete scenario: Widget priced
10 NGN with 100 on hand, sale of 30. -/
theorem commit_sale_in_range_witness :
    ∃ s' db',
      Sale.save ⟨2, 1, ⟨1, "Widget", ⟨10, "NGN"⟩, 100, 1⟩, 30⟩
        ⟨[⟨1, "Widget", ⟨10, "NGN"⟩, 100, 1⟩], []⟩ = .ok (s', db') ∧
      s'.product.quantity = 100 - 30 ∧
      findBy Product.id 1 db'.products = some s'.product ∧
      ∃ row, findBy SaleRow.id 2 db'.sales = some row ∧
        row.quantity = 30 ∧ row.product = 1 :=
  commit_sale_in_range ⟨2, 1, ⟨1, "Widget", ⟨10, "NGN"⟩, 100, 1⟩, 30⟩
    ⟨[⟨1, "Widget", ⟨10, "NGN"⟩, 100, 1⟩], []⟩ (by decide) (by decide)

/-- C2: reversing a successful commit restores the product's on-hand
quantity to its pre-commit value exactly — on the returned in-memory
instance and in the persisted product row — and the ledger row no
longer exists afterwards. -/
theorem reverse_restores (s s' : Sale) (db db1 : DB)
    (h : Sale.save s db = .ok (s', db1)) :
    (Sale.delete s' db1).1.product.quantity = s.product.quantity ∧
    findBy Product.id s.product.id (Sale.delete s' db1).2.products =
      some s.product ∧
    findBy SaleRow.id s.id (Sale.delete s' db1).2.sales = none := by
  by_cases h0 : s.quantity = 0
  · rw [Sale.save, if_pos h0] at h; cases h
  · by_cases h1 : s.quantity > s.product.quantity
    · rw [Sale.save, if_neg h0, if_pos h1] at h; cases h
    · rw [Sale.save, if_neg h0, if_neg h1] at h
      simp only [Except.ok.injEq, Prod.mk.injEq] at h
      obtain ⟨hs, hdb⟩ := h
      subst hs
      subst hdb
      have harith : s.product.quantity - s.quantity + s.quantity
          = s.product.quantity := by omega
      refine ⟨?_, ?_, ?_⟩
      · simp only [Sale.delete]
        omega
      · show findBy Product.id s.product.id
          (upsertBy Product.id
            { s.product with
                quantity := s.product.quantity - s.quantity + s.quantity } _)
          = some s.product
        rw [harith]
        exact findBy_upsertBy Product.id s.product _
      · exact findBy_removeBy SaleRow.id s.id _

/-- Witness for C2: committing the Widget sale of 30 from 100 on hand
and reversing it restores 100, and the ledger row is gone. -/
theorem reverse_restores_witness :
    (Sale.delete ⟨2, 1, ⟨1, "Widget", ⟨10, "NGN"⟩, 70, 1⟩, 30⟩
        ⟨[⟨1, "Widget", ⟨10, "NGN"⟩, 70, 1⟩], [⟨2, 1, 1, 30⟩]⟩).1.product.quantity
      = 100 ∧
    findBy Product.id 1
      (Sale.delete ⟨2, 1, ⟨1, "Widget", ⟨10, "NGN"⟩, 70, 1⟩, 30⟩
        ⟨[⟨1, "Widget", ⟨10, "NGN"⟩, 70, 1⟩], [⟨2, 1, 1, 30⟩]⟩).2.products
      = some ⟨1, "Widget", ⟨10, "NGN"⟩, 100, 1⟩ ∧
    findBy SaleRow.id 2
      (Sale.delete ⟨2, 1, ⟨1, "Widget", ⟨10, "NGN"⟩, 70, 1⟩, 30⟩
        ⟨[⟨1, "Widget", ⟨10, "NGN"⟩, 70, 1⟩], [⟨2, 1, 1, 30⟩]⟩).2.sales
      = none :=
  reverse_restores
    ⟨2, 1, ⟨1, "Widget", ⟨10, "NGN"⟩, 100, 1⟩, 30⟩
    ⟨2, 1, ⟨1, "Widget", ⟨10, "NGN"⟩, 70, 1⟩, 30⟩
    ⟨[⟨1, "Widget", ⟨10, "NGN"⟩, 100, 1⟩], []⟩
    ⟨[⟨1, "Widget", ⟨10, "NGN"⟩, 70, 1⟩], [⟨2, 1, 1, 30⟩]⟩
    rfl

/-- C3: for every product (on-hand quantity non-negative in the spec's
data model this hypothesis is not even needed) and every positive sale
quantity exceeding the on-hand quantity, the commit fails with the
insufficient-inventory error carrying the available quantity; no
successor state is produced, so no mutation is observable. -/
theorem insufficient_inventory_rejected (s : Sale) (db : DB)
    (hpos : 0 < s.quantity) (hgt : s.product.quantity < s.quantity) :
    Sale.save s db = .error (.insufficientInventory s.product.quantity) := by
  have h0 : ¬ (s.quantity = 0) := by omega
  rw [Sale.save, if_neg h0, if_pos hgt]

/-- Witness for C3 at the spec's concrete scenario: 70 on hand, sale of
80 rejected reporting 70 available. -/
theorem insufficient_inventory_rejected_witness :
    Sale.save ⟨3, 1, ⟨1, "Widget", ⟨10, "NGN"⟩, 70, 1⟩, 80⟩
        ⟨[⟨1, "Widget", ⟨10, "NGN"⟩, 70, 1⟩], [⟨2, 1, 1, 30⟩]⟩ =
      .error (.insufficientInventory 70) :=
  insufficient_inventory_rejected
    ⟨3, 1, ⟨1, "Widget", ⟨10, "NGN"⟩, 70, 1⟩, 80⟩
    ⟨[⟨1, "Widget", ⟨10, "NGN"⟩, 70, 1⟩], [⟨2, 1, 1, 30⟩]⟩
    (by decide) (by decide)

/-- C4: evaluation of `Sale.save` at a negative quantity.  The source
checks only `quantity == 0`, so a sale of −5 units against 10 on hand
passes both checks: the save succeeds, the product's on-hand quantity
is *increased* to 15 and a ledger row with quantity −5 is persisted —
the claim's required `InvalidQuantity` rejection does not happen. -/
theorem negative_quantity_applied :
    Sale.save ⟨2, 1, ⟨1, "Widget", ⟨10, "NGN"⟩, 10, 1⟩, -5⟩
        ⟨[⟨1, "Widget", ⟨10, "NGN"⟩, 10, 1⟩], []⟩ =
      .ok (⟨2, 1, ⟨1, "Widget", ⟨10, "NGN"⟩, 15, 1⟩, -5⟩,
           ⟨[⟨1, "Widget", ⟨10, "NGN"⟩, 15, 1⟩], [⟨2, 1, 1, -5⟩]⟩) := rfl

/-- C5: aggregation over a filter matching no ledger entries returns the
zero money value in the target currency and does not fail. -/
theorem total_revenue_empty (rates : String → String → Option Rat)
    (currency : String) (entries : List Sale) (pred : Sale → Bool)
    (h : entries.filter pred = []) :
    Sale.get_total_revenue rates currency entries pred = .ok ⟨0, currency⟩ := by
  rw [Sale.get_total_revenue, h]
  rfl

/-- Witness for C5: no entries at all, no rates known, target NGN. -/
theorem total_revenue_empty_witness :
    Sale.get_total_revenue (fun _ _ => none) "NGN" [] (fun _ => true) =
      .ok ⟨0, "NGN"⟩ :=
  total_revenue_empty (fun _ _ => none) "NGN" [] (fun _ => true) rfl

/-- If some entry of the list has no exchange rate to the target, the
sum aborts with the conversion error, whatever the accumulator. -/
theorem moneySum_missing_rate (rates : String → String → Option Rat)
    (target : String) (l : List Sale) (acc : Option Money)
    (h : ∃ s ∈ l, rates s.product.price.currency target = none) :
    moneySum rates target acc l = .error .conversionUnavailable := by
  induction l generalizing acc with
  | nil => simp at h
  | cons s rest ih =>
    rcases h with ⟨t, ht, hn⟩
    rcases List.mem_cons.mp ht with rfl | hmem
    · simp [moneySum, convert_money, Sale.revenue, hn]
    · cases hc : rates s.product.price.currency target with
      | none => simp [moneySum, convert_money, Sale.revenue, hc]
      | some r =>
        simp only [moneySum, convert_money, Sale.revenue, hc]
        cases acc with
        | none => exact ih _ ⟨t, hmem, hn⟩
        | some a => exact ih _ ⟨t, hmem, hn⟩

/-- C6: if at least one matching entry's currency has no known exchange
rate to the target currency, the whole aggregation fails with the
conversion error (no partial sum is returned). -/
theorem total_revenue_missing_rate (rates : String → String → Option Rat)
    (currency : String) (entries : List Sale) (pred : Sale → Bool)
    (h : ∃ s ∈ entries.filter pred,
        rates s.product.price.currency currency = none) :
    Sale.get_total_revenue rates currency entries pred =
      .error .conversionUnavailable := by
  rw [Sale.get_total_revenue, moneySum_missing_rate rates currency _ none h]

/-- Witness for C6: one NGN entry, aggregation to USD with an empty rate
table fails. -/
theorem total_revenue_missing_rate_witness :
    Sale.get_total_revenue (fun _ _ => none) "USD"
      [⟨2, 1, ⟨1, "Widget", ⟨10, "NGN"⟩, 100, 1⟩, 30⟩] (fun _ => true) =
      .error .conversionUnavailable :=
  total_revenue_missing_rate (fun _ _ => none) "USD"
    [⟨2, 1, ⟨1, "Widget", ⟨10, "NGN"⟩, 100, 1⟩, 30⟩] (fun _ => true)
    ⟨⟨2, 1, ⟨1, "Widget", ⟨10, "NGN"⟩, 100, 1⟩, 30⟩, by simp, rfl⟩

/-- C7: combining two entries fails with the product-mismatch error
precisely when the products' primary keys differ; when the keys agree
the combination succeeds, whatever the products' other attributes
(price, name, quantity) are — the check is `Product.__eq__`, identity
only. -/
theorem combine_checks_product_identity (a b : Sale) :
    (a.product.id ≠ b.product.id →
      Sale.add a b = .error .productMismatch ∧
      Sale.sub a b = .error .productMismatch) ∧
    (a.product.id = b.product.id →
      (∃ r, Sale.add a b = .ok r) ∧ (∃ r, Sale.sub a b = .ok r)) := by
  constructor
  · intro hne
    have hpe : Product.eq a.product b.product = false := by
      simp [Product.eq, hne]
    exact ⟨by simp [Sale.add, hpe], by simp [Sale.sub, hpe]⟩
  · intro heq
    have hpe : Product.eq a.product b.product = true := by
      simp [Product.eq, heq]
    exact ⟨⟨⟨0, a.store, a.product, a.quantity + b.quantity⟩,
        by simp [Sale.add, hpe]⟩,
      ⟨⟨0, a.store, a.product, a.quantity - b.quantity⟩,
        by simp [Sale.sub, hpe]⟩⟩

/-- Witness for C7: entries of products with keys 1 and 9 fail to
combine either way; entries of products that share key 1 but differ in
name, price and on-hand quantity combine fine. -/
theorem combine_checks_product_identity_witness :
    (Sale.add ⟨2, 1, ⟨1, "Widget", ⟨10, "NGN"⟩, 100, 1⟩, 3⟩
        ⟨3, 1, ⟨9, "Gadget", ⟨10, "NGN"⟩, 100, 1⟩, 2⟩ =
          .error .productMismatch ∧
      Sale.sub ⟨2, 1, ⟨1, "Widget", ⟨10, "NGN"⟩, 100, 1⟩, 3⟩
        ⟨3, 1, ⟨9, "Gadget", ⟨10, "NGN"⟩, 100, 1⟩, 2⟩ =
          .error .productMismatch) ∧
    ((∃ r, Sale.add ⟨2, 1, ⟨1, "Widget", ⟨10, "NGN"⟩, 100, 1⟩, 3⟩
        ⟨3, 1, ⟨1, "Gadget", ⟨99, "USD"⟩, 5, 1⟩, 2⟩ = .ok r) ∧
      (∃ r, Sale.sub ⟨2, 1, ⟨1, "Widget", ⟨10, "NGN"⟩, 100, 1⟩, 3⟩
        ⟨3, 1, ⟨1, "Gadget", ⟨99, "USD"⟩, 5, 1⟩, 2⟩ = .ok r)) :=
  ⟨(combine_checks_product_identity
      ⟨2, 1, ⟨1, "Widget", ⟨10, "NGN"⟩, 100, 1⟩, 3⟩
      ⟨3, 1, ⟨9, "Gadget", ⟨10, "NGN"⟩, 100, 1⟩, 2⟩).1 (by decide),
   (combine_checks_product_identity
      ⟨2, 1, ⟨1, "Widget", ⟨10, "NGN"⟩, 100, 1⟩, 3⟩
      ⟨3, 1, ⟨1, "Gadget", ⟨99, "USD"⟩, 5, 1⟩, 2⟩).2 rfl⟩

/-- C8: for two entries for the same store and same product (same
primary key), addition returns a new unsaved entry (a pure value — no
database state exists or is touched) with the summed quantity, and
subtraction one with the difference, both carrying the left entry's
store and product; no error is raised at combination time even when the
difference is zero or negative. -/
theorem combine_same_product_values (a b : Sale)
    (_hst : a.store = b.store) (hp : a.product.id = b.product.id) :
    Sale.add a b = .ok ⟨0, a.store, a.product, a.quantity + b.quantity⟩ ∧
    Sale.sub a b = .ok ⟨0, a.store, a.product, a.quantity - b.quantity⟩ := by
  have hpe : Product.eq a.product b.product = true := by
    simp [Product.eq, hp]
  exact ⟨by simp [Sale.add, hpe], by simp [Sale.sub, hpe]⟩

/-- Witness for C8: quantities 3 and 5 give 8 on addition and −2 on
subtraction (the negative result passes through without error). -/
theorem combine_same_product_values_witness :
    Sale.add ⟨2, 1, ⟨1, "Widget", ⟨10, "NGN"⟩, 100, 1⟩, 3⟩
        ⟨3, 1, ⟨1, "Widget", ⟨10, "NGN"⟩, 100, 1⟩, 5⟩ =
      .ok ⟨0, 1, ⟨1, "Widget", ⟨10, "NGN"⟩, 100, 1⟩, 8⟩ ∧
    Sale.sub ⟨2, 1, ⟨1, "Widget", ⟨10, "NGN"⟩, 100, 1⟩, 3⟩
        ⟨3, 1, ⟨1, "Widget", ⟨10, "NGN"⟩, 100, 1⟩, 5⟩ =
      .ok ⟨0, 1, ⟨1, "Widget", ⟨10, "NGN"⟩, 100, 1⟩, -2⟩ :=
  combine_same_product_values
    ⟨2, 1, ⟨1, "Widget", ⟨10, "NGN"⟩, 100, 1⟩, 3⟩
    ⟨3, 1, ⟨1, "Widget", ⟨10, "NGN"⟩, 100, 1⟩, 5⟩ rfl rfl

/-- Concrete fixture for C9: a Widget with 90 on hand. -/
def widget90 : Product :=
  ⟨1, "Widget", ⟨10, "NGN"⟩, 90, 1⟩

/-- Concrete fixture for C9: a persisted sale of 10 Widgets. -/
def sale10 : Sale :=
  ⟨2, 1, widget90, 10⟩

/-- Concrete fixture for C9: the store holding `widget90` and the row of
`sale10`. -/
def dbC9 : DB :=
  ⟨[widget90], [⟨2, 1, 1, 10⟩]⟩

/-- Counterexample to C9 as stated: it is false that at every
intermediate point of the reverse operation the entry is still present
or the product increment is already persisted.  After the first
persistent step (`super().delete()`) the ledger row is already gone
while the product row still holds the pre-increment quantity 90. -/
theorem reverse_order_counterexample :
    ¬ (∀ d ∈ Sale.deleteTrace sale10 dbC9,
        ¬ (findBy SaleRow.id 2 d.sales = none ∧
           findBy Product.id 1 d.products = some widget90)) := by
  decide

/-- C9 amended: the reverse operation's persistent steps occur in the
order remove-the-ledger-row first, persist-the-incremented-product
second (the in-memory increment happens before both, but its
persistence is the last step).  In the intermediate state the entry is
already removed while the product row is untouched; in the final state
the entry is removed and the incremented product row is persisted, and
that final state is exactly the state `Sale.delete` returns. -/
theorem reverse_order_amended (s : Sale) (db : DB) :
    ∃ d1 d2, Sale.deleteTrace s db = [d1, d2] ∧
      findBy SaleRow.id s.id d1.sales = none ∧
      d1.products = db.products ∧
      findBy SaleRow.id s.id d2.sales = none ∧
      findBy Product.id s.product.id d2.products =
        some { s.product with quantity := s.product.quantity + s.quantity } ∧
      Sale.delete s db =
        ({ s with product :=
            { s.product with quantity := s.product.quantity + s.quantity } },
         d2) := by
  refine ⟨_, _, rfl, ?_, rfl, ?_, ?_, rfl⟩
  · exact findBy_removeBy SaleRow.id s.id db.sales
  · exact findBy_removeBy SaleRow.id s.id db.sales
  · exact findBy_upsertBy Product.id
      { s.product with quantity := s.product.quantity + s.quantity }
      db.products

/-- `Sale.save` succeeds exactly when the two precondition checks pass,
and then the result is determined: the in-memory instance carries the
decremented product, and the state gains the sale row and the
decremented product row. -/
theorem save_ok_iff (s : Sale) (db : DB) (s' : Sale) (db' : DB) :
    Sale.save s db = .ok (s', db') ↔
      s.quantity ≠ 0 ∧ ¬ (s.quantity > s.product.quantity) ∧
      s' = { s with product :=
        { s.product with quantity := s.product.quantity - s.quantity } } ∧
      db' = { products := upsertBy Product.id
                { s.product with quantity := s.product.quantity - s.quantity }
                db.products,
              sales := upsertBy SaleRow.id
                ⟨s.id, s.store, s.product.id, s.quantity⟩ db.sales } := by
  constructor
  · intro h
    by_cases h0 : s.quantity = 0
    · rw [Sale.save, if_pos h0] at h; cases h
    · by_cases h1 : s.quantity > s.product.quantity
      · rw [Sale.save, if_neg h0, if_pos h1] at h; cases h
      · rw [Sale.save, if_neg h0, if_neg h1] at h
        simp only [Except.ok.injEq, Prod.mk.injEq] at h
        exact ⟨h0, h1, h.1.symm, h.2.symm⟩
  · rintro ⟨h0, h1, rfl, rfl⟩
    rw [Sale.save, if_neg h0, if_neg h1]
    rfl

/-- C10: the inventory decrement is a per-call effect of `Sale.save`,
not a once-per-creation effect: whenever two successive saves of the
same in-memory sale instance both pass the precondition checks, each
call decrements the product's on-hand quantity by the sale's quantity,
so the quantity ends at its original value minus twice the sale
quantity, in memory and in the persisted product row. -/
theorem save_decrements_per_call (s s1 s2 : Sale) (db db1 db2 : DB)
    (ha : Sale.save s db = .ok (s1, db1))
    (hb : Sale.save s1 db1 = .ok (s2, db2)) :
    s1.product.quantity = s.product.quantity - s.quantity ∧
    s2.quantity = s.quantity ∧
    s2.product.quantity = s.product.quantity - 2 * s.quantity ∧
    findBy Product.id s.product.id db2.products = some s2.product := by
  obtain ⟨h0, h1, rfl, rfl⟩ := (save_ok_iff s db s1 db1).mp ha
  obtain ⟨h0b, h1b, rfl, rfl⟩ := (save_ok_iff _ _ s2 db2).mp hb
  refine ⟨rfl, rfl, ?_, ?_⟩
  · show s.product.quantity - s.quantity - s.quantity
        = s.product.quantity - 2 * s.quantity
    omega
  · exact findBy_upsertBy Product.id
      { s.product with quantity := s.product.quantity - s.quantity - s.quantity }
      (upsertBy Product.id
        { s.product with quantity := s.product.quantity - s.quantity }
        db.products)

/-- Witness for C10: a sale of 30 Widgets saved twice against 100 on
hand leaves 40 on hand, in memory and persisted. -/
theorem save_decrements_per_call_witness :
    (70 : Int) = 100 - 30 ∧ (30 : Int) = 30 ∧ (40 : Int) = 100 - 2 * 30 ∧
    findBy Product.id 1 [(⟨1, "Widget", ⟨10, "NGN"⟩, 40, 1⟩ : Product)] =
      some ⟨1, "Widget", ⟨10, "NGN"⟩, 40, 1⟩ :=
  save_decrements_per_call
    ⟨2, 1, ⟨1, "Widget", ⟨10, "NGN"⟩, 100, 1⟩, 30⟩
    ⟨2, 1, ⟨1, "Widget", ⟨10, "NGN"⟩, 70, 1⟩, 30⟩
    ⟨2, 1, ⟨1, "Widget", ⟨10, "NGN"⟩, 40, 1⟩, 30⟩
    ⟨[⟨1, "Widget", ⟨10, "NGN"⟩, 100, 1⟩], []⟩
    ⟨[⟨1, "Widget", ⟨10, "NGN"⟩, 70, 1⟩], [⟨2, 1, 1, 30⟩]⟩
    ⟨[⟨1, "Widget", ⟨10, "NGN"⟩, 40, 1⟩], [⟨2, 1, 1, 30⟩]⟩
    rfl rfl
